import Mathlib

/-!
Verification of the AudioNoise playback-pipeline controllers.

This file gives a shallow embedding of the two pipeline controllers of the
repository — `AudioNoisePlayer` (tui.py) and `AudioNoisePedal` (gui.py) —
together with the `Knob` widget's value clamping and the streaming bridge
(`AudioNoisePlayer.stream_audio`), and proves properties of the control-wire
protocol, the process/stream lifecycle and the pause/resume behaviour.

Modelling conventions:
* Machine-level resources (pids, file descriptors, audio streams) are modelled
  as `Nat` identifiers drawn from a monotone counter `nextId`; spawned argv
  lists and terminations are recorded in explicit logs so that "exactly one
  process was spawned/terminated" is a statement about log growth.
* Python's `subprocess` termination semantics are modelled by a ghost flag
  `childAlive` together with `childResponsive` (whether the child honours
  SIGTERM): `terminate(); wait(timeout)` kills a responsive child only, while
  `kill()` always ends the child.
* Audio chunks are modelled as lists of decoded int32 samples (one 4096-byte
  read = up to 1024 samples).  The numpy normalization `x / 2^31` is length-
  preserving and maps 0 to 0, so frames carry their integer numerators; the
  all-zero silence frame is `List.replicate n 0`.
* An `os.write` to the control pipe may fail (broken pipe); the possible
  outcome is an explicit `writeOk : Bool` argument, and the Python
  `try/except: pass` around it is embedded by returning the unchanged state
  on failure.
-/

namespace AudioNoise

/-- tui.py line 13: `SAMPLE_RATE = 48000`. -/
def SAMPLE_RATE : Nat := 48000

/-- tui.py line 14: `CHUNK_SIZE = 1024`. -/
def CHUNK_SIZE : Nat := 1024

/-- tui.py lines 15-25: the per-effect default pot values of the `EFFECTS`
table (the `pots` label lists are presentation-only and not modelled). -/
def EFFECTS : List (String × List Int) :=
  [("flanger", [60, 60, 60, 60]),
   ("echo", [30, 30, 30, 30]),
   ("fm", [25, 25, 50, 50]),
   ("am", [50, 50, 50, 50]),
   ("phaser", [30, 30, 50, 50]),
   ("discont", [80, 10, 20, 20]),
   ("distortion", [50, 60, 80, 0]),
   ("tube", [50, 20, 0, 100]),
   ("growlingbass", [40, 35, 0, 40])]

/-- Python's format spec 02d, minimum width 2 with sign-aware zero fill.
For `v ≥ 0` the decimal digits are zero-padded to width 2; for `v < 0` the
sign occupies one column, so a one-digit magnitude is NOT padded:
-5 formats as "-5" and 150 formats as "150". -/
def pyFormat02d (v : Int) : String :=
  if v < 0 then
    "-" ++ toString v.natAbs
  else
    (if v.natAbs < 10 then "0" else "") ++ toString v.natAbs

/-- tui.py line 212 / gui.py line 686: the control message built by
`send_pot`: the letter p, the decimal index, the value under format 02d,
and a newline. -/
def sendPotCmd (idx : Nat) (value : Int) : String :=
  "p" ++ toString idx ++ pyFormat02d value ++ "\n"

/-- The spec's own `zero_pad2` (§8): exactly two digits, zero-padded.
This definition follows the spec's words, for comparison with the encoder
embedded from the source. -/
def specZeroPad2 (v : Nat) : String :=
  if v < 10 then "0" ++ toString v else toString v

/-- Python's two-decimal float format .2f applied to `v/100` for an integer
pot value `v` (tui.py lines 123-124, gui.py line 709).  For `|v| ≤ 100` the double nearest
to `v/100` rounds at two decimals exactly to the decimal value `v/100`, so
the formatting is embedded as exact decimal formatting of `v/100`. -/
def formatPot2f (v : Int) : String :=
  (if v < 0 then "-" else "")
    ++ toString (v.natAbs / 100) ++ "." ++ specZeroPad2 (v.natAbs % 100)

/-- gui.py lines 226-232, `Knob.set_value`: clamp the incoming value to
`[0,99]` (max of 0 and min of 99 and the rounded value; the argument is taken after
Python's int-rounding), store it if it changed, and notify `on_change` with
the stored value exactly when it changed.  Returns the new knob value and
the notified value, if any. -/
def knobSetValue (current : Int) (value : Int) : Int × Option Int :=
  let newValue := max 0 (min 99 value)
  if newValue ≠ current then (newValue, some newValue) else (current, none)

/-- Assoc-list update for `pot_values[effect][idx] = value`
(tui.py line 339). -/
def setPotValues (pv : List (String × List Int)) (effect : String)
    (idx : Nat) (value : Int) : List (String × List Int) :=
  pv.map (fun p => if p.1 = effect then (p.1, p.2.set idx value) else p)

/-- State of tui.py's `AudioNoisePlayer` (lines 88-256).  Fields map to the
Python attributes of the same names; in addition,
* `spawns`, `terms`, `ctrlSent`, `sinkWrites` are event logs (argv lists of
  spawned children, pids handed to `terminate()`, successfully written
  control lines, frames written to the audio stream);
* `childAlive`/`childResponsive` are the termination ghost state described in
  the file header;
* `nextId` allocates fresh pid/fd/stream identifiers. -/
structure PlayerState where
  audioBuffer : Bool
  playing : Bool
  paused : Bool
  proc : Option Nat
  controlWrite : Option Nat
  stream : Option Nat
  effect : String
  potValues : List (String × List Int)
  waveform : List Int
  samplesPlayed : Nat
  nextId : Nat
  spawns : List (List String)
  terms : List Nat
  ctrlSent : List String
  sinkWrites : List (List Int)
  childAlive : Bool
  childResponsive : Bool
  deriving Repr, DecidableEq

/-- The pot values stored for the player's current effect
(`self.pot_values[self.effect]`, tui.py line 123). -/
def PlayerState.pots (s : PlayerState) : List Int :=
  (s.potValues.lookup s.effect).getD []

/-- tui.py line 124: the spawned argv — the executable ./convert, the effect
name, the four formatted parameters, and the --control=fd argument.
Note the `--control=` argument comes LAST, after the effect name and the
four parameter strings. -/
def tuiCmd (effect : String) (pots : List Int) (ctrlRead : Nat) : List String :=
  ["./convert", effect] ++ pots.map formatPot2f ++ ["--control=" ++ toString ctrlRead]

/-- tui.py lines 108-172, `AudioNoisePlayer.start`.
* paused → clear the pause flag and return (resume; nothing else touched);
* already playing → return unchanged;
* otherwise: reset `samples_played`, create the control pipe, spawn
  `./convert` (stdin is either the in-memory buffer via a writer thread or
  the input file's fd — neither choice is otherwise observable here), then
  open the output stream.  `sinkOk` is the outcome of `sd.OutputStream`:
  on failure the flag is cleared, the child is terminated and the exception
  is re-raised (the `Option String` component).  `childResp` is the spawned
  child's SIGTERM-responsiveness ghost. -/
def PlayerState.start (s : PlayerState) (sinkOk childResp : Bool) :
    PlayerState × Option String :=
  if s.paused then
    ({ s with paused := false, playing := true }, none)
  else if s.playing then
    (s, none)
  else
    let ctrlRead := s.nextId
    let ctrlWrite := s.nextId + 1
    let pid := s.nextId + 2
    let sid := s.nextId + 3
    let s1 : PlayerState :=
      { s with playing := true, samplesPlayed := 0,
               controlWrite := some ctrlWrite,
               proc := some pid,
               childAlive := true, childResponsive := childResp,
               spawns := s.spawns ++ [tuiCmd s.effect s.pots ctrlRead],
               nextId := s.nextId + 4 }
    if sinkOk then
      ({ s1 with stream := some sid }, none)
    else
      ({ s1 with playing := false,
                 terms := s1.terms ++ [pid],
                 childAlive := s1.childAlive && !childResp },
       some "stream open failed")

/-- tui.py lines 174-178, `AudioNoisePlayer.pause`: if playing, clear
`playing` and set `paused`; the process and pipes are untouched. -/
def PlayerState.pause (s : PlayerState) : PlayerState :=
  if s.playing then { s with playing := false, paused := true } else s

/-- tui.py lines 180-208, `AudioNoisePlayer.stop`: clear both flags, join
the bridge thread (timeout 0.2s — no modelled state), close the control
write end, `terminate()` + `wait(timeout=0.5)` the child (exceptions,
including the wait timeout, are swallowed; there is NO `kill()` escalation,
so an unresponsive child stays alive while its handle is dropped), and close
the output stream. -/
def PlayerState.stop (s : PlayerState) : PlayerState :=
  let s1 := { s with playing := false, paused := false }
  let s2 := { s1 with controlWrite := none }
  let s3 :=
    match s2.proc with
    | some pid =>
        { s2 with proc := none,
                  terms := s2.terms ++ [pid],
                  childAlive := s2.childAlive && !s2.childResponsive }
    | none => s2
  { s3 with stream := none }

/-- tui.py lines 210-215, `AudioNoisePlayer.send_pot`: only when the control
fd is set and `playing`, write `sendPotCmd idx value`; an `os.write` failure
(`writeOk = false`, broken pipe) is caught by `except: pass` and leaves the
state untouched. -/
def PlayerState.sendPot (s : PlayerState) (idx : Nat) (value : Int)
    (writeOk : Bool) : PlayerState :=
  if s.controlWrite.isSome && s.playing then
    if writeOk then { s with ctrlSent := s.ctrlSent ++ [sendPotCmd idx value] }
    else s
  else s

/-- tui.py lines 338-341, `AudioNoiseGUI.update_pot`: always store
`int(value)` into `pot_values[current_effect][idx]`, then forward via
`send_pot` only when playing.  `guiEffect` is the GUI's
`self.current_effect`. -/
def PlayerState.updatePot (s : PlayerState) (guiEffect : String) (idx : Nat)
    (value : Int) (writeOk : Bool) : PlayerState :=
  let s1 := { s with potValues := setPotValues s.potValues guiEffect idx value }
  if s1.playing then s1.sendPot idx value writeOk else s1

/-- tui.py lines 217-230, `AudioNoisePlayer.send_effect`: if not playing,
return; otherwise stop the pipeline, switch `self.effect` to the new name
(restoring `audio_buffer`, which `stop` does not touch anyway) and start
again. -/
def PlayerState.sendEffect (s : PlayerState) (effectName : String)
    (sinkOk childResp : Bool) : PlayerState × Option String :=
  if !s.playing then (s, none)
  else
    let audioBuf := s.audioBuffer
    let s1 := s.stop
    let s2 := { s1 with effect := effectName, audioBuffer := audioBuf }
    s2.start sinkOk childResp

/-- One iteration body of tui.py lines 241-250 (`stream_audio`, after a
non-empty read of `chunk`): if the stream is open, either write the decoded
frame, update the snapshot and the counters (playing and not paused), or
write an all-zero frame of the same length (paused), or do nothing. -/
def PlayerState.streamStep (s : PlayerState) (chunk : List Int) : PlayerState :=
  if s.stream.isSome then
    if s.playing && !s.paused then
      { s with sinkWrites := s.sinkWrites ++ [chunk],
               waveform := chunk,
               samplesPlayed := s.samplesPlayed + chunk.length }
    else if s.paused then
      { s with sinkWrites := s.sinkWrites ++ [List.replicate chunk.length 0] }
    else s
  else s

/-- The `while` loop of tui.py lines 233-253: continue while
`(playing or paused) and proc`; an empty read (`if not raw: break`) or the
end of the available chunks exits the loop. -/
def PlayerState.streamLoop (s : PlayerState) : List (List Int) → PlayerState
  | [] => s
  | c :: cs =>
      if (s.playing || s.paused) && s.proc.isSome then
        if c = [] then s
        else PlayerState.streamLoop (s.streamStep c) cs
      else s

/-- tui.py lines 232-256, `AudioNoisePlayer.stream_audio` run to stream end:
the read loop over the available chunks followed by the epilogue
`if not self.paused: self.playing = False`. -/
def PlayerState.streamAudio (s : PlayerState) (chunks : List (List Int)) :
    PlayerState :=
  let s1 := s.streamLoop chunks
  if !s1.paused then { s1 with playing := false } else s1

/-- State of gui.py's `AudioNoisePedal` (lines 435-796).  Fields map to the
Python attributes; `inputRawExists` and `playerCmd` are the environment
checks of `start_playback` (existence of `input.raw`, availability of
`aplay`/`ffplay`).  The `./convert` child and the audio-player child are
logged separately (`spawns`/`terms` vs `playerSpawns`/`playerTerms`):
the player process is the spec's PlaybackSink, not the effect process. -/
structure PedalState where
  playing : Bool
  proc : Option Nat
  player : Option Nat
  controlWrite : Option Nat
  currentEffect : String
  potValues : List (String × List Int)
  inputRawExists : Bool
  playerCmd : Bool
  nextId : Nat
  spawns : List (List String)
  playerSpawns : List Nat
  terms : List Nat
  playerTerms : List Nat
  childAlive : Bool
  deriving Repr, DecidableEq

/-- gui.py line 708: the pot values stored for the pedal's current effect. -/
def PedalState.pots (s : PedalState) : List Int :=
  (s.potValues.lookup s.currentEffect).getD []

/-- gui.py line 716: the spawned argv — the executable ./convert, the
--control=fd argument, the effect name, and the four formatted parameters.
Here `--control=` comes right after the executable, BEFORE the effect
name. -/
def guiCmd (effect : String) (pots : List Int) (ctrlRead : Nat) : List String :=
  ["./convert", "--control=" ++ toString ctrlRead, effect] ++ pots.map formatPot2f

/-- gui.py lines 762-785, `AudioNoisePedal.stop_playback`: close the control
write end, then for each of the audio-player child and the `./convert` child
`terminate()` + `wait(timeout=0.3)` and on any failure `kill()` — so the
children are no longer running regardless of responsiveness — then drop both
handles and clear `playing`. -/
def PedalState.stopPlayback (s : PedalState) : PedalState :=
  let s1 := { s with controlWrite := none }
  let s2 :=
    match s1.player with
    | some q => { s1 with playerTerms := s1.playerTerms ++ [q] }
    | none => s1
  let s3 :=
    match s2.proc with
    | some pid => { s2 with terms := s2.terms ++ [pid], childAlive := false }
    | none => s2
  { s3 with player := none, proc := none, playing := false }

/-- gui.py lines 692-760, `AudioNoisePedal.start_playback`: if already
playing, first run a full `stop_playback` (and then continue — a restart,
not a no-op); bail out if `input.raw` or an audio player is missing; create
the control pipe; spawn `./convert` with the gui argv, piped into the audio
player.  `spawnOk = false` is a spawn failure: the `except` clause closes
the control write end and returns with nothing spawned. -/
def PedalState.startPlayback (s : PedalState) (spawnOk : Bool) : PedalState :=
  let s0 := if s.playing then s.stopPlayback else s
  if !s0.inputRawExists then s0
  else if !s0.playerCmd then s0
  else
    let ctrlRead := s0.nextId
    let ctrlWrite := s0.nextId + 1
    let s1 := { s0 with controlWrite := some ctrlWrite, nextId := s0.nextId + 2 }
    if spawnOk then
      let pid := s1.nextId
      let qid := s1.nextId + 1
      { s1 with proc := some pid,
                player := some qid,
                childAlive := true,
                spawns := s1.spawns ++ [guiCmd s1.currentEffect s1.pots ctrlRead],
                playerSpawns := s1.playerSpawns ++ [qid],
                playing := true,
                nextId := s1.nextId + 2 }
    else
      { s1 with controlWrite := none }

/-- gui.py lines 683-690, `AudioNoisePedal.send_pot`: identical guard and
wire format to the tui variant. -/
def PedalState.sendPot (s : PedalState) (idx : Nat) (value : Int)
    (writeOk : Bool) (sent : List String) : List String :=
  if s.controlWrite.isSome && s.playing then
    if writeOk then sent ++ [sendPotCmd idx value] else sent
  else sent

/-- gui.py lines 661-671, `AudioNoisePedal.on_effect_change`: if the combo
reports no text, do nothing; otherwise switch `current_effect` (the knobs
are re-labelled and reloaded with `notify=False`, so `pot_values` is not
modified and nothing is sent), and if playing run `stop_playback`
followed by `start_playback`. -/
def PedalState.onEffectChange (s : PedalState) (text : Option String)
    (spawnOk : Bool) : PedalState :=
  match text with
  | none => s
  | some t =>
      let s1 := { s with currentEffect := t }
      if s1.playing then s1.stopPlayback.startPlayback spawnOk
      else s1

/-- gui.py lines 787-792, `AudioNoisePedal.check_playback` (the 100ms poll
timer): if playing and the `./convert` child has exited
(`poll() is not None`, argument `procExited`), run `stop_playback` and show
"Finished"; the returned Bool keeps the timer alive. -/
def PedalState.checkPlayback (s : PedalState) (procExited : Bool) :
    PedalState × Bool :=
  if s.playing && s.proc.isSome && procExited then (s.stopPlayback, false)
  else (s, s.playing)

/-- The freshly constructed `AudioNoisePlayer` of tui.py lines 91-106:
nothing loaded or running, effect is the first of `EFFECT_NAMES`
("flanger"), pot values are the per-effect defaults, and the waveform
snapshot is 4096 zeros. -/
def initPlayer : PlayerState :=
  { audioBuffer := false, playing := false, paused := false,
    proc := none, controlWrite := none, stream := none,
    effect := "flanger", potValues := EFFECTS,
    waveform := List.replicate 4096 0, samplesPlayed := 0,
    nextId := 0, spawns := [], terms := [], ctrlSent := [], sinkWrites := [],
    childAlive := false, childResponsive := true }

/-- A player paused mid-playback: a fresh player after `start()` then
`pause()` (a responsive child, stream open). -/
def pausedPlayer : PlayerState := ((initPlayer.start true true).1).pause

/-- A player running a child that ignores SIGTERM: a fresh player after
`start()` spawned an unresponsive child. -/
def stuckPlayer : PlayerState := (initPlayer.start true false).1

/-- An idle `AudioNoisePedal` in a complete environment: `input.raw` exists
and an audio player is available, current effect "echo" with its default
pot values. -/
def initPedal : PedalState :=
  { playing := false, proc := none, player := none, controlWrite := none,
    currentEffect := "echo", potValues := [("echo", [30, 30, 30, 30])],
    inputRawExists := true, playerCmd := true, nextId := 0,
    spawns := [], playerSpawns := [], terms := [], playerTerms := [],
    childAlive := false }

/-- A pedal mid-playback: `initPedal` after one successful
`start_playback()`. -/
def playingPedal : PedalState := initPedal.startPlayback true

/-! Helper lemmas shared by the claim theorems. -/

/-- Python's 02d format of a value in the range 0..99 is exactly two
characters. -/
theorem pyFormat02d_length_two :
    ∀ v : Int, 0 ≤ v → v ≤ 99 → (pyFormat02d v).length = 2 := by
  have hnat : ∀ n : Nat, n < 100 → (pyFormat02d (n : Int)).length = 2 := by decide
  intro v h0 h99
  have hv : ((v.toNat : Nat) : Int) = v := Int.toNat_of_nonneg h0
  have hlt : v.toNat < 100 := by omega
  calc (pyFormat02d v).length
      = (pyFormat02d (v.toNat : Int)).length := by rw [hv]
    _ = 2 := hnat v.toNat hlt

/-- A control line for a single-digit index and an in-range value is exactly
5 characters (4 before the newline). -/
theorem sendPotCmd_length_five :
    ∀ idx : Nat, idx < 10 → ∀ v : Int, 0 ≤ v → v ≤ 99 →
      (sendPotCmd idx v).length = 5 := by
  have hidx : ∀ idx : Nat, idx < 10 → (toString idx).length = 1 := by decide
  intro idx hi v h0 h99
  unfold sendPotCmd
  rw [String.length_append, String.length_append, String.length_append,
      hidx idx hi, pyFormat02d_length_two v h0 h99]
  rfl

/-- One bridge iteration never touches the flags, the process handle or the
stream handle. -/
theorem streamStep_preserves (s : PlayerState) (c : List Int) :
    (s.streamStep c).playing = s.playing ∧ (s.streamStep c).paused = s.paused
      ∧ (s.streamStep c).proc = s.proc
      ∧ (s.streamStep c).stream = s.stream := by
  unfold PlayerState.streamStep
  split
  · split
    · simp
    · split <;> simp
  · simp

/-- The bridge read loop never touches the playing and paused flags. -/
theorem streamLoop_preserves (cs : List (List Int)) :
    ∀ s : PlayerState, (s.streamLoop cs).playing = s.playing
      ∧ (s.streamLoop cs).paused = s.paused := by
  induction cs with
  | nil => intro s; exact ⟨rfl, rfl⟩
  | cons c cs ih =>
      intro s
      unfold PlayerState.streamLoop
      split
      · split
        · exact ⟨rfl, rfl⟩
        · have h1 := ih (s.streamStep c)
          have h2 := streamStep_preserves s c
          exact ⟨h1.1.trans h2.1, h1.2.trans h2.2.1⟩
      · exact ⟨rfl, rfl⟩

/-! The claim theorems. -/

/-- C1: for every index in 0..3 and value in 0..99, the control line built
by `send_pot` is exactly the letter p, the one-digit index, the two-digit
zero-padded value and a newline — 4 characters plus the newline — and when
the channel is open and the player is playing, exactly that line is written. -/
theorem send_pot_wire_format :
    ∀ idx : Nat, idx < 4 → ∀ v : Nat, v < 100 →
      (sendPotCmd idx (v : Int) = "p" ++ toString idx ++ specZeroPad2 v ++ "\n"
        ∧ (sendPotCmd idx (v : Int)).length = 5)
      ∧ ∀ s : PlayerState, s.controlWrite.isSome = true → s.playing = true →
          (s.sendPot idx (v : Int) true).ctrlSent
            = s.ctrlSent ++ [sendPotCmd idx (v : Int)] := by
  have hfmt : ∀ idx : Nat, idx < 4 → ∀ v : Nat, v < 100 →
      sendPotCmd idx (v : Int) = "p" ++ toString idx ++ specZeroPad2 v ++ "\n"
      ∧ (sendPotCmd idx (v : Int)).length = 5 := by decide
  intro idx hi v hv
  refine ⟨hfmt idx hi v hv, ?_⟩
  intro s h1 h2
  simp [PlayerState.sendPot, h1, h2]

/-- C1 witness: index 1, value 80 yields the 5-character line p180 plus
newline. -/
theorem send_pot_wire_format_witness :
    sendPotCmd 1 (80 : Int) = "p" ++ toString 1 ++ specZeroPad2 80 ++ "\n"
      ∧ (sendPotCmd 1 (80 : Int)).length = 5 :=
  (send_pot_wire_format 1 (by decide) 80 (by decide)).1

/-- C2 counterexample: `send_pot` itself performs no clamping.  Encoding
value 150 at index 1 yields the 6-character line p1150 plus newline, not the
claimed p199 line, so the wire line does not stay in the fixed 5-byte
format. -/
theorem send_pot_no_clamp_cex :
    sendPotCmd 1 (150 : Int) = "p1150" ++ "\n"
      ∧ sendPotCmd 1 (150 : Int) ≠ "p199" ++ "\n"
      ∧ (sendPotCmd 1 (150 : Int)).length ≠ 5
      ∧ sendPotCmd 1 (-5 : Int) = "p1-5" ++ "\n" := by decide

/-- C2 amended: the clamp lives in the GUI `Knob.set_value`, not in
`send_pot`: every value the knob notifies (and hence every value the knob
path hands to `send_pot`) is `clamp(value, 0, 99)` — −5 stores 0, 150
stores 99 — and encoding such a value always yields the 5-byte line. -/
theorem knob_clamps_before_send :
    (∀ cur v v' : Int, (knobSetValue cur v).2 = some v' →
      v' = max 0 (min 99 v) ∧ 0 ≤ v' ∧ v' ≤ 99
        ∧ ∀ idx : Nat, idx < 4 → (sendPotCmd idx v').length = 5)
    ∧ knobSetValue 50 (-5) = (0, some 0)
    ∧ knobSetValue 50 150 = (99, some 99) := by
  refine ⟨?_, by decide, by decide⟩
  intro cur v v' h
  simp only [knobSetValue] at h
  split at h
  · simp only [Option.some_inj] at h
    subst h
    have h99 : max 0 (min 99 v) ≤ 99 := max_le (by norm_num) (min_le_left _ _)
    have h0 : (0 : Int) ≤ max 0 (min 99 v) := le_max_left _ _
    refine ⟨rfl, h0, h99, ?_⟩
    intro idx hi
    exact sendPotCmd_length_five idx (by omega) _ h0 h99
  · simp at h

/-- C2 witness: a knob at 50 receiving −5 notifies the clamped value 0, and
encoding it at index 1 is a 5-character line. -/
theorem knob_clamps_before_send_witness :
    (knobSetValue 50 (-5)).2 = some 0 ∧ (sendPotCmd 1 (0 : Int)).length = 5 :=
  ⟨by decide, (knob_clamps_before_send.1 50 (-5) 0 (by decide)).2.2.2 1 (by decide)⟩

/-- C3 counterexample: the TUI's spawned argv for a fresh start has the
effect name directly after the executable and the control-fd argument LAST,
not before the effect name as claimed. -/
theorem tui_control_arg_position_cex :
    ((initPlayer.start true true).1).spawns
      = [["./convert", "flanger", "0.60", "0.60", "0.60", "0.60", "--control=0"]]
    ∧ ["./convert", "flanger", "0.60", "0.60", "0.60", "0.60", "--control=0"]
        ≠ ["./convert", "--control=0", "flanger", "0.60", "0.60", "0.60", "0.60"] := by
  decide

/-- C3 amended: playback start always spawns exactly one child whose argv is
the executable, the effect name and the four two-fractional-digit parameter
strings, with the control argument placed before the effect name in the GTK
GUI but appended after the parameters in the TUI; every formatted parameter
for a pot value 0..100 is 4 characters in the range 0.00 to 1.00. -/
theorem spawn_argv_shapes :
    (∀ (s : PlayerState) (resp : Bool), s.playing = false → s.paused = false →
      ((s.start true resp).1).spawns
        = s.spawns ++ [["./convert", s.effect] ++ s.pots.map formatPot2f
            ++ ["--control=" ++ toString s.nextId]])
    ∧ (∀ p : PedalState, p.playing = false → p.inputRawExists = true →
        p.playerCmd = true →
        (p.startPlayback true).spawns
          = p.spawns ++ [["./convert", "--control=" ++ toString p.nextId,
              p.currentEffect] ++ p.pots.map formatPot2f])
    ∧ (∀ v : Nat, v < 101 → (formatPot2f (v : Int)).length = 4
        ∧ ((formatPot2f (v : Int)).take 2 = "0."
            ∨ formatPot2f (v : Int) = "1.00")) := by
  refine ⟨?_, ?_, by decide⟩
  · intro s resp h1 h2
    simp [PlayerState.start, h1, h2, tuiCmd, PlayerState.pots]
  · intro p h1 h2 h3
    simp [PedalState.startPlayback, h1, h2, h3, guiCmd, PedalState.pots]

/-- C3 witness: the concrete argv logs of a fresh TUI start and a fresh GUI
start. -/
theorem spawn_argv_shapes_witness :
    ((initPlayer.start true true).1).spawns
      = initPlayer.spawns ++ [["./convert", initPlayer.effect]
          ++ initPlayer.pots.map formatPot2f
          ++ ["--control=" ++ toString initPlayer.nextId]]
    ∧ (initPedal.startPlayback true).spawns
        = initPedal.spawns ++ [["./convert", "--control=" ++ toString initPedal.nextId,
            initPedal.currentEffect] ++ initPedal.pots.map formatPot2f] :=
  ⟨spawn_argv_shapes.1 initPlayer true rfl rfl,
   spawn_argv_shapes.2.1 initPedal rfl rfl rfl⟩

/-- C4 counterexample: in the GTK GUI, `start_playback` while already
playing is NOT a no-op: it spawns a second (replacement) process — the spawn
log grows from 1 to 2 entries — and the state changes. -/
theorem gui_start_restarts_cex :
    playingPedal.playing = true
    ∧ playingPedal.spawns.length = 1
    ∧ (playingPedal.startPlayback true).spawns.length = 2
    ∧ playingPedal.startPlayback true ≠ playingPedal := by decide

/-- C4 amended: in the TUI, `start()` while already Playing (and not
paused) is a no-op — state unchanged, nothing spawned, no exception; in the
GTK GUI, `start_playback()` while playing is a restart: it terminates the
running child and spawns exactly one new process, ending in the playing
state. -/
theorem start_while_playing_behaviour :
    (∀ (s : PlayerState) (sinkOk resp : Bool), s.playing = true →
      s.paused = false → s.start sinkOk resp = (s, none))
    ∧ (∀ (p : PedalState) (pid : Nat), p.playing = true →
        p.inputRawExists = true → p.playerCmd = true → p.proc = some pid →
        (p.startPlayback true).spawns.length = p.spawns.length + 1
        ∧ (p.startPlayback true).terms = p.terms ++ [pid]
        ∧ (p.startPlayback true).playing = true) := by
  constructor
  · intro s sinkOk resp h1 h2
    simp [PlayerState.start, h1, h2]
  · intro p pid h1 h2 h3 h4
    rcases hq : p.player with _ | q <;>
      simp [PedalState.startPlayback, PedalState.stopPlayback, h1, h2, h3, h4, hq]

/-- C4 witness: a playing TUI player is returned unchanged by `start()`; a
playing pedal ends playing again after the restart. -/
theorem start_while_playing_behaviour_witness :
    stuckPlayer.start true true = (stuckPlayer, none)
    ∧ (playingPedal.startPlayback true).playing = true :=
  ⟨start_while_playing_behaviour.1 stuckPlayer true true rfl rfl,
   (start_while_playing_behaviour.2 playingPedal 2 rfl rfl rfl rfl).2.2⟩

/-- C5: changing the effect identity while running performs exactly one
stop+start cycle in both variants: the termination log grows by exactly the
old child's pid and the spawn log by exactly one argv carrying the new
effect name and the stored pot values for it (the control-fd placement per
variant as established for C3). -/
theorem effect_change_single_restart :
    (∀ (s : PlayerState) (e : String) (resp : Bool) (pid : Nat),
      s.playing = true → s.proc = some pid →
      (s.sendEffect e true resp).2 = none
      ∧ ((s.sendEffect e true resp).1).terms = s.terms ++ [pid]
      ∧ ((s.sendEffect e true resp).1).spawns
          = s.spawns ++ [["./convert", e]
              ++ ((s.potValues.lookup e).getD []).map formatPot2f
              ++ ["--control=" ++ toString s.nextId]]
      ∧ ((s.sendEffect e true resp).1).effect = e
      ∧ ((s.sendEffect e true resp).1).playing = true)
    ∧ (∀ (p : PedalState) (e : String) (pid : Nat),
        p.playing = true → p.inputRawExists = true → p.playerCmd = true →
        p.proc = some pid →
        (p.onEffectChange (some e) true).terms = p.terms ++ [pid]
        ∧ (p.onEffectChange (some e) true).spawns
            = p.spawns ++ [["./convert", "--control=" ++ toString p.nextId, e]
                ++ ((p.potValues.lookup e).getD []).map formatPot2f]
        ∧ (p.onEffectChange (some e) true).playing = true) := by
  constructor
  · intro s e resp pid h1 h2
    simp [PlayerState.sendEffect, PlayerState.stop, PlayerState.start,
          PlayerState.pots, tuiCmd, h1, h2]
  · intro p e pid h1 h2 h3 h4
    rcases hq : p.player with _ | q <;>
      simp [PedalState.onEffectChange, PedalState.stopPlayback,
            PedalState.startPlayback, PedalState.pots, guiCmd, h1, h2, h3, h4, hq]

/-- C5 witness: switching a playing TUI player to "echo" restarts it into
"echo"; switching the playing pedal to "flanger" leaves it playing. -/
theorem effect_change_single_restart_witness :
    ((stuckPlayer.sendEffect "echo" true true).1).effect = "echo"
    ∧ ((stuckPlayer.sendEffect "echo" true true).1).terms = stuckPlayer.terms ++ [2]
    ∧ (playingPedal.onEffectChange (some "flanger") true).playing = true :=
  ⟨(effect_change_single_restart.1 stuckPlayer "echo" true 2 rfl rfl).2.2.2.1,
   (effect_change_single_restart.1 stuckPlayer "echo" true 2 rfl rfl).2.1,
   (effect_change_single_restart.2 playingPedal "flanger" 2 rfl rfl rfl rfl).2.2⟩

/-- C6 counterexample: starting from a paused pipeline, a clean end of the
output stream leaves the paused flag set — the state stays Paused, it does
NOT transition to Idle. -/
theorem paused_eof_stays_paused_cex :
    pausedPlayer.paused = true ∧ pausedPlayer.playing = false
    ∧ (pausedPlayer.streamAudio [[1, 2, 3]]).paused = true
    ∧ (pausedPlayer.streamAudio [[1, 2, 3]]).playing = false := by decide

/-- C6 amended: a clean EOF of the process output while Playing drives the
TUI pipeline to Idle (both flags cleared) with no `stop()` call and no
error surfaced (the loop breaks, it never raises); while Paused, however,
the TUI bridge exits leaving the paused flag set, so the state remains
Paused until an explicit `stop()`.  In the GTK GUI (which has no pause),
child exit observed by the poll timer tears the pipeline down to stopped. -/
theorem stream_eof_transitions :
    (∀ (s : PlayerState) (chunks : List (List Int)), s.playing = true →
      s.paused = false →
      (s.streamAudio chunks).playing = false
      ∧ (s.streamAudio chunks).paused = false)
    ∧ (∀ (s : PlayerState) (chunks : List (List Int)), s.paused = true →
        (s.streamAudio chunks).paused = true)
    ∧ (∀ p : PedalState, p.playing = true → p.proc.isSome = true →
        ((p.checkPlayback true).1).playing = false
        ∧ ((p.checkPlayback true).1).proc = none) := by
  refine ⟨?_, ?_, ?_⟩
  · intro s chunks h1 h2
    have hpre := streamLoop_preserves chunks s
    simp [PlayerState.streamAudio, hpre.1, hpre.2, h1, h2]
  · intro s chunks h1
    have hpre := streamLoop_preserves chunks s
    simp [PlayerState.streamAudio, hpre.2, h1]
  · intro p h1 h2
    rcases hq : p.player with _ | q <;> rcases hr : p.proc with _ | pid <;>
      simp_all [PedalState.checkPlayback, PedalState.stopPlayback]

/-- C6 witness: a playing player reaches Idle after its stream ends; a
paused player stays paused; the playing pedal is stopped once the timer sees
the child gone. -/
theorem stream_eof_transitions_witness :
    (stuckPlayer.streamAudio [[1], [2]]).playing = false
    ∧ (pausedPlayer.streamAudio []).paused = true
    ∧ ((playingPedal.checkPlayback true).1).playing = false :=
  ⟨(stream_eof_transitions.1 stuckPlayer [[1], [2]] rfl rfl).1,
   stream_eof_transitions.2.1 pausedPlayer [] rfl,
   (stream_eof_transitions.2.2 playingPedal rfl rfl).1⟩

/-- C7: while the pause flag is set (and the sink is open), a bridge
iteration on a non-empty chunk writes exactly one all-zero frame of the
same length as the decoded frame to the sink and leaves the waveform
snapshot and the played-sample counter unchanged. -/
theorem paused_bridge_writes_silence :
    ∀ (s : PlayerState) (c : List Int), s.paused = true →
      s.stream.isSome = true → c ≠ [] →
      s.streamStep c
          = { s with sinkWrites := s.sinkWrites ++ [List.replicate c.length 0] }
      ∧ (s.streamStep c).waveform = s.waveform
      ∧ (s.streamStep c).samplesPlayed = s.samplesPlayed
      ∧ (List.replicate c.length (0 : Int)).length = c.length := by
  intro s c h1 h2 _
  refine ⟨?_, ?_, ?_, List.length_replicate c.length 0⟩ <;>
    simp [PlayerState.streamStep, h1, h2]

/-- C7 witness: the paused player receiving a 2-sample chunk writes the
2-sample zero frame and keeps its counter. -/
theorem paused_bridge_writes_silence_witness :
    pausedPlayer.streamStep [5, 6]
        = { pausedPlayer with
            sinkWrites := pausedPlayer.sinkWrites
              ++ [List.replicate ([5, 6] : List Int).length 0] }
    ∧ (pausedPlayer.streamStep [5, 6]).samplesPlayed
        = pausedPlayer.samplesPlayed :=
  ⟨(paused_bridge_writes_silence pausedPlayer [5, 6] rfl rfl (by decide)).1,
   (paused_bridge_writes_silence pausedPlayer [5, 6] rfl rfl (by decide)).2.2.1⟩

/-- C8: in every state, `update_pot` stores the new parameter value; a line
is appended to the control channel exactly when the state is playing, the
channel is open and the write succeeds; and a failed write (broken pipe,
embedded as the write-outcome argument being false) is absorbed — the
function returns normally and no field other than the stored parameters
changes. -/
theorem update_pot_any_state :
    ∀ (s : PlayerState) (e : String) (idx : Nat) (v : Int) (ok : Bool),
      (s.updatePot e idx v ok).potValues = setPotValues s.potValues e idx v
      ∧ ((s.updatePot e idx v ok).ctrlSent
          = if s.playing && s.controlWrite.isSome && ok
            then s.ctrlSent ++ [sendPotCmd idx v] else s.ctrlSent)
      ∧ (s.updatePot e idx v ok).playing = s.playing
      ∧ (s.updatePot e idx v ok).paused = s.paused
      ∧ (s.updatePot e idx v ok).proc = s.proc
      ∧ (s.updatePot e idx v ok).controlWrite = s.controlWrite
      ∧ (s.updatePot e idx v ok).stream = s.stream
      ∧ (s.updatePot e idx v ok).samplesPlayed = s.samplesPlayed := by
  intro s e idx v ok
  cases hp : s.playing <;> cases hcw : s.controlWrite <;> cases ok <;>
    simp [PlayerState.updatePot, PlayerState.sendPot, hp, hcw]

/-- C9 counterexample: the TUI `stop()` does not escalate to kill.  For a
running player whose child ignores SIGTERM, `stop()` clears the flags and
drops the handle, but the child process is STILL running afterwards. -/
theorem tui_stop_no_kill_cex :
    stuckPlayer.playing = true ∧ stuckPlayer.childAlive = true
    ∧ stuckPlayer.stop.playing = false ∧ stuckPlayer.stop.paused = false
    ∧ stuckPlayer.stop.proc = none
    ∧ stuckPlayer.stop.childAlive = true := by decide

/-- C9 amended: `stop()` from any state clears both flags, closes the
control write end, drops the process handle and closes the stream, with
bounded waits; the GTK GUI's stop escalates terminate to kill, so its child
is never left running; the TUI stop only terminates and waits, so its child
survives stop() exactly when it ignores SIGTERM. -/
theorem stop_teardown :
    (∀ s : PlayerState,
      s.stop.playing = false ∧ s.stop.paused = false
      ∧ s.stop.controlWrite = none ∧ s.stop.proc = none ∧ s.stop.stream = none
      ∧ (s.proc.isSome = true →
          s.stop.childAlive = (s.childAlive && !s.childResponsive)))
    ∧ (∀ p : PedalState,
        p.stopPlayback.playing = false ∧ p.stopPlayback.controlWrite = none
        ∧ p.stopPlayback.proc = none ∧ p.stopPlayback.player = none
        ∧ (p.proc.isSome = true → p.stopPlayback.childAlive = false)) := by
  constructor
  · intro s
    rcases hr : s.proc with _ | pid <;> simp [PlayerState.stop, hr]
  · intro p
    rcases hq : p.player with _ | q <;> rcases hr : p.proc with _ | pid <;>
      simp [PedalState.stopPlayback, hq, hr]

/-- C9 witness: stopping a player with a responsive child leaves no child
running, and stopping the playing pedal kills its child. -/
theorem stop_teardown_witness :
    ((initPlayer.start true true).1).stop.childAlive
        = (((initPlayer.start true true).1).childAlive
            && !((initPlayer.start true true).1).childResponsive)
    ∧ playingPedal.stopPlayback.childAlive = false :=
  ⟨(stop_teardown.1 (initPlayer.start true true).1).2.2.2.2.2 rfl,
   (stop_teardown.2 playingPedal).2.2.2.2 rfl⟩

/-- C10: `pause()` followed by `start()` on a playing (unpaused) pipeline
returns it to exactly the original state — the played-sample counter, the
process handle, the control channel and the audio stream are all unchanged
and no exception is raised — while `samples_played` is reset to 0 only by a
fresh start from the fully stopped state. -/
theorem resume_preserves_position :
    (∀ (s : PlayerState) (sinkOk resp : Bool), s.playing = true →
      s.paused = false → s.pause.start sinkOk resp = (s, none))
    ∧ (∀ (s : PlayerState) (resp : Bool), s.playing = false →
        s.paused = false → ((s.start true resp).1).samplesPlayed = 0) := by
  constructor
  · intro s sinkOk resp h1 h2
    rcases s
    simp_all [PlayerState.pause, PlayerState.start]
  · intro s resp h1 h2
    simp [PlayerState.start, h1, h2]

/-- C10 witness: pausing and resuming the running player gives back the very
same state; a fresh start from the initial player has counter 0. -/
theorem resume_preserves_position_witness :
    stuckPlayer.pause.start true true = (stuckPlayer, none)
    ∧ ((initPlayer.start true true).1).samplesPlayed = 0 :=
  ⟨resume_preserves_position.1 stuckPlayer true true rfl rfl,
   resume_preserves_position.2 initPlayer true rfl rfl⟩

end AudioNoise
